import Mathlib

set_option maxRecDepth 10000

/-!
Verification of the relevance-scoring and selection pipeline of the
Job-Hunter agent, embedded shallowly from `src/nodes/relevance_scoring.py`,
`src/config/settings.py`, `src/config/state.py` and `src/nodes/job_discovery.py`.

Python floats are modelled as exact rationals; Python's `round(x, n)`
is modelled as round-half-up on rationals (`roundQ`), and `str.lower`
as character-wise `Char.toLower` (all keywords involved are ASCII).
-/

namespace JobHunter

/-- `config/state.py`: the `JobListing` pydantic model. -/
structure JobListing where
  job_id : String
  title : String
  company : String
  location : String
  work_mode : String
  job_url : String
  description : String
  required_skills : List String
  preferred_skills : List String
  posted_date : Option String
  experience_required : String
  salary_range : Option String
  source : String
  joining_date_flexible : Bool
  relevance_score : ℚ := 0
deriving DecidableEq, Repr

/-- Python `str.lower()` (character-wise; the repository only matches ASCII keywords). -/
def lowerStr (s : String) : String := s.toLower

/-- Python's substring test `needle in hay`: the needle's characters occur as a
contiguous run inside the haystack's characters. -/
def containsSub (hay needle : String) : Bool := decide (needle.toList <:+: hay.toList)

/-- Python `round` to an integer, modelled as round-half-up on rationals. -/
def roundQ (q : ℚ) : ℤ := ⌊q + 1/2⌋

/-- Python `round(x, 2)`. -/
def round2 (q : ℚ) : ℚ := (roundQ (q * 100) : ℚ) / 100

/-- Python `round(x, 1)`. -/
def round1 (q : ℚ) : ℚ := (roundQ (q * 10) : ℚ) / 10

/-! ## Configuration (`config/settings.py`) -/

/-- `config/settings.py`: `CANDIDATE_SKILLS` flattened in dict-insertion order into `ALL_SKILLS`. -/
def ALL_SKILLS : List String :=
  -- languages
  ["Python", "C++", "Java", "JavaScript", "HTML/CSS"] ++
  -- frameworks
  ["Flask", "Node.js", "React", "Streamlit", "PyTorch"] ++
  -- ml_frameworks
  ["PyTorch", "Hugging Face", "scikit-learn", "BERT", "LLaMA"] ++
  -- genai
  ["LangChain", "LangGraph", "RAG", "Text Embeddings",
   "Prompt Engineering", "LoRA", "QLoRA", "LLMs",
   "Fine-tuning", "FAISS", "Chroma", "Vector Databases",
   "OpenAI API", "GPT-4o", "GPT-4o-mini"] ++
  -- agentic
  ["LangGraph", "LangChain", "Multi-Agent Systems",
   "Autonomous Agents", "Tool Calling", "Multi-step Reasoning",
   "Agent Orchestration", "State Machines", "6-node Pipeline"] ++
  -- mlops
  ["DVC", "Dagster", "Astronomer", "Apache Airflow",
   "AWS", "S3", "EC2", "SageMaker", "Docker",
   "MLflow", "CI/CD Pipelines", "Model Versioning", "Data Pipelines"] ++
  -- scraping
  ["BeautifulSoup", "Requests", "Selenium",
   "LinkedIn Scraping", "Indeed Scraping", "Web Scraping"] ++
  -- apis
  ["Telegram Bot API", "Google Sheets API", "Notion API",
   "OpenAI API", "REST APIs"] ++
  -- databases
  ["MySQL", "PostgreSQL", "MongoDB"] ++
  -- data
  ["Pandas", "NumPy", "Matplotlib", "Seaborn"] ++
  -- tools
  ["Git", "GitHub", "Linux", "LeetCode",
   "Groq Cloud", "Gradio", "Whisper", "gTTS",
   "Sentence Transformers"]

/-- `config/settings.py`: `PREFERRED_COMPANY_KEYWORDS`. -/
def PREFERRED_COMPANY_KEYWORDS : List String :=
  ["AI", "ML", "GenAI", "LLM", "Generative", "Agentic",
   "NLP", "Computer Vision", "Deep Learning", "SaaS", "startup"]

/-- `config/settings.py`: `BLACKLIST_KEYWORDS`. -/
def BLACKLIST_KEYWORDS : List String :=
  ["senior", "lead", "principal", "staff", "director",
   "5+ years", "7+ years", "10+ years", "3+ years",
   "2+ years mandatory"]

/-- `config/settings.py`: `MIN_RELEVANCE_SCORE = 60`. -/
def MIN_RELEVANCE_SCORE : ℚ := 60

/-! ## Scoring components (`nodes/relevance_scoring.py`) -/

/-- `_skill_overlap_score`: fraction of required skills found (case-insensitively)
in the candidate's flat skill list, scaled to 40 and rounded to 2 decimals;
flat 20 when the posting lists no required skills. -/
def skillOverlapScore (job : JobListing) : ℚ :=
  if job.required_skills = [] then 20
  else
    let candidate_lower := ALL_SKILLS.map lowerStr
    let matched := job.required_skills.countP (fun s => candidate_lower.contains (lowerStr s))
    round2 ((matched : ℚ) / (job.required_skills.length : ℚ) * 40)

/-- `_experience_match_score`: tiered keyword scan over lowered
experience-requirement text and description. -/
def experienceMatchScore (job : JobListing) : ℚ :=
  let combined := lowerStr job.experience_required ++ " " ++ lowerStr job.description
  if (["intern", "fresher", "0-1", "entry", "graduate", "trainee"].any
        fun kw => containsSub combined kw) then 25
  else if (["1-2 year", "1+ year", "junior"].any fun kw => containsSub combined kw) then 18
  else if (["2+ year", "2-3 year"].any fun kw => containsSub combined kw) then 8
  else if (["3+", "4+", "5+", "senior", "lead"].any fun kw => containsSub combined kw) then 0
  else 15

/-- The tier selection in `_experience_match_score`, abstracted over the four
keyword-scan outcomes (if-chain in source order: 25, 18, 8, 0, default 15). -/
def expScoreTiers (b1 b2 b3 b4 : Bool) : ℚ :=
  if b1 then 25 else if b2 then 18 else if b3 then 8 else if b4 then 0 else 15

/-- `_tech_stack_score`: the fixed `priority_tech` list. -/
def priority_tech : List String :=
  ["langchain", "langgraph", "llm", "rag", "pytorch", "transformers",
   "huggingface", "openai", "generative", "agent", "vector", "fine-tun",
   "mistral", "llama", "gpt", "embedding", "langsmith"]

/-- `_tech_stack_score`: 3 points per priority term found in
description + joined skill lists (note: the source concatenates the lowered
description directly with the joined skills, with no separator), capped at 25. -/
def techStackScore (job : JobListing) : ℚ :=
  let desc_lower := lowerStr job.description
  let skill_lower := (job.required_skills ++ job.preferred_skills).map lowerStr
  let all_text := desc_lower ++ String.intercalate " " skill_lower
  let hits := priority_tech.countP (fun t => containsSub all_text t)
  min ((hits : ℚ) * 3) 25

/-- `_company_preference_score`: 2 points per preferred-company keyword found in
company name + description, capped at 10. -/
def companyPreferenceScore (job : JobListing) : ℚ :=
  let combined := lowerStr job.company ++ " " ++ lowerStr job.description
  let hits := PREFERRED_COMPANY_KEYWORDS.countP (fun kw => containsSub combined (lowerStr kw))
  min ((hits : ℚ) * 2) 10

/-- `_eligibility_score`: work-mode / joining-flexibility bonus.
Defined in the source but never called by `relevance_scoring_node`. -/
def eligibilityScore (job : JobListing) : ℚ :=
  (if ["Remote", "Hybrid"].contains job.work_mode then (5 : ℚ) else 0) +
  (if job.joining_date_flexible then (5 : ℚ) else 0)

/-- `_is_disqualified`: any blacklist keyword is a case-insensitive substring of
title + " " + description + " " + experience-requirement text. -/
def isDisqualified (job : JobListing) : Bool :=
  let combined := lowerStr (job.title ++ " " ++ job.description ++ " " ++ job.experience_required)
  BLACKLIST_KEYWORDS.any (fun kw => containsSub combined (lowerStr kw))

/-! ## Semantic similarity and the main node -/

/-- Outcome of the optional embedding collaborator for one run:
`absent` = `get_embeddings()` failed, so `embeddings_model is None`;
`failing` = the model is loaded but every call raises;
`similarity s` = the embed+cosine computation succeeds and yields cosine
similarity `s` (mathematically, `-1 ≤ s ≤ 1`). -/
inductive EmbeddingsOutcome where
  | absent
  | failing
  | similarity (sim : ℚ)
deriving DecidableEq, Repr

/-- `_semantic_similarity`: `none` models the `except` branch (any exception
while embedding), which returns the fixed default 5.0; `some s` models a
successful cosine-similarity computation, returning `round(s * 10, 2)`. -/
def semanticSimilarity (callResult : Option ℚ) : ℚ :=
  match callResult with
  | none => 5
  | some s => round2 (s * 10)

/-- The semantic bonus used by `relevance_scoring_node`: `0.0` when the
embedding model is `None`, otherwise the result of `_semantic_similarity`. -/
def semanticBonus (e : EmbeddingsOutcome) : ℚ :=
  match e with
  | .absent => 0
  | .failing => semanticSimilarity none
  | .similarity s => semanticSimilarity (some s)

/-- Sum of the four deterministic components (`base_score` in the node). -/
def baseScore (job : JobListing) : ℚ :=
  skillOverlapScore job + experienceMatchScore job +
    techStackScore job + companyPreferenceScore job

/-- `final_score` as written to `job.relevance_score`:
`round(min(base_score + semantic_bonus * 0.1, 100), 1)`. -/
def finalScore (e : EmbeddingsOutcome) (job : JobListing) : ℚ :=
  round1 (min (baseScore job + semanticBonus e * (1/10)) 100)

/-- One iteration of the scoring loop body on a non-disqualified job:
write the final score onto the posting. -/
def scoreJob (e : EmbeddingsOutcome) (job : JobListing) : JobListing :=
  { job with relevance_score := finalScore e job }

/-- `scored_jobs.sort(key=..., reverse=True)` insertion step: a stable
descending insert (the incoming element goes before the first element whose
score it meets or exceeds, hence before equal scores of later elements). -/
def insertDesc (a : JobListing) : List JobListing → List JobListing
  | [] => [a]
  | b :: l =>
    if b.relevance_score ≤ a.relevance_score then a :: b :: l
    else b :: insertDesc a l

/-- Stable descending sort by `relevance_score`, modelling Python's stable
`list.sort(key=lambda j: j.relevance_score, reverse=True)`. -/
def sortDescByScore : List JobListing → List JobListing
  | [] => []
  | a :: l => insertDesc a (sortDescByScore l)

/-- The selection gate (`relevance_scoring.py` lines 199-203): sort the scored
set descending by score, then keep those with score ≥ threshold. -/
def selectionGate (scored : List JobListing) (threshold : ℚ) : List JobListing :=
  (sortDescByScore scored).filter (fun j => threshold ≤ j.relevance_score)

/-- `relevance_scoring_node`: drop disqualified postings, score the rest,
sort descending, and select those meeting the threshold. Returns
(`scored_jobs`, `selected_jobs`). -/
def relevanceScoringNode (e : EmbeddingsOutcome) (jobs : List JobListing)
    (threshold : ℚ) : List JobListing × List JobListing :=
  let scored := (jobs.filter (fun j => !(isDisqualified j))).map (scoreJob e)
  let sorted := sortDescByScore scored
  let selected := sorted.filter (fun j => threshold ≤ j.relevance_score)
  (sorted, selected)

/-! ## Work-mode / flexibility rewriting (for the unused-field hyperproperty) -/

/-- Rewrite exactly the two fields that `_eligibility_score` reads and that the
scoring node never consults. -/
def setWorkModeFlex (j : JobListing) (wm : String) (fl : Bool) : JobListing :=
  { j with work_mode := wm, joining_date_flexible := fl }

/-! ## Spec-worded skill overlap (refinement comparison for the rounding) -/

/-- The skill-overlap component as the spec words it (fraction of required
skills present, scaled to 40, no rounding; flat 20 on an empty list). Kept
separate from `skillOverlapScore` (the source rounds to 2 decimals). -/
def skillOverlapSpecWorded (job : JobListing) : ℚ :=
  if job.required_skills = [] then 20
  else
    let candidate_lower := ALL_SKILLS.map lowerStr
    let matched := job.required_skills.countP (fun s => candidate_lower.contains (lowerStr s))
    (matched : ℚ) / (job.required_skills.length : ℚ) * 40

/-! ## Discovery-side identifier and deduplication (`nodes/job_discovery.py`) -/

/-- A raw posting dictionary as produced by the scrapers; only the fields the
deduplication logic touches are modelled. -/
structure RawJob where
  job_id : String
  title : String
  company : String
deriving DecidableEq, Repr

/-- `_job_id`: `hashlib.md5(f"{title}{company}".encode()).hexdigest()[:10]`.
The md5 hex digest itself is Python's `hashlib` (standard library, external to
the repository), so it is taken as a parameter `md5hex`; the repository's own
code is the concatenation and the 10-character truncation. -/
def jobIdOf (md5hex : String → String) (title company : String) : String :=
  (md5hex (title ++ company)).take 10

/-- Every scraper builds its raw dict with `"job_id": _job_id(title, company)`. -/
def mkRawJob (md5hex : String → String) (title company : String) : RawJob :=
  { job_id := jobIdOf md5hex title company, title := title, company := company }

/-- The `seen_ids` deduplication loop of `job_discovery_node`: keep a posting
iff its identifier has not been seen, adding kept identifiers to `seen`. -/
def dedupByJobId (seen : List String) : List RawJob → List RawJob
  | [] => []
  | j :: rest =>
    if j.job_id ∈ seen then dedupByJobId seen rest
    else j :: dedupByJobId (j.job_id :: seen) rest

/-! ## Concrete postings used as witnesses and counterexamples -/

/-- A neutral posting scoring 0 on every component: no required skill matches,
a "3+ yrs" experience tier, an empty description, no preferred-company hit. -/
def jobZero : JobListing :=
  { job_id := "z", title := "Cobol Dev", company := "Foo", location := "X",
    work_mode := "Onsite", job_url := "", description := "",
    required_skills := ["Cobol"], preferred_skills := [], posted_date := none,
    experience_required := "3+ yrs experience", salary_range := none,
    source := "t", joining_date_flexible := false }

/-- A posting with three required skills of which exactly one ("Python") is in
the candidate's flat skill set. -/
def jobThird : JobListing :=
  { job_id := "3", title := "T", company := "C", location := "X",
    work_mode := "Onsite", job_url := "", description := "",
    required_skills := ["Python", "Cobol", "Fortran"], preferred_skills := [],
    posted_date := none, experience_required := "", salary_range := none,
    source := "t", joining_date_flexible := false }

/-- The end-to-end scenario posting of the spec: required skills Python and
PyTorch (both in the candidate set), fresher/intern experience text, a
description containing LangChain and RAG, company "Acme AI". -/
def jobScenario : JobListing :=
  { job_id := "c8", title := "Machine Learning Intern", company := "Acme AI",
    location := "Remote", work_mode := "Remote", job_url := "",
    description := "We build products with LangChain and RAG pipelines.",
    required_skills := ["Python", "PyTorch"], preferred_skills := [],
    posted_date := none, experience_required := "Machine Learning Intern, fresher welcome",
    salary_range := none, source := "test", joining_date_flexible := true }

/-- A posting whose title contains the blacklist keyword "Senior". -/
def jobBlacklisted : JobListing :=
  { job_id := "b", title := "Senior ML Engineer", company := "Acme AI",
    location := "X", work_mode := "Remote", job_url := "",
    description := "Team leadership role.", required_skills := ["Python"],
    preferred_skills := [], posted_date := none,
    experience_required := "5+ years", salary_range := none,
    source := "t", joining_date_flexible := true }

/-- Helper for the selection-gate scenario: a posting carrying a given
identifier and an already-computed relevance score. -/
def scoredPosting (i : String) (s : ℚ) : JobListing :=
  { job_id := i, title := i, company := "C", location := "X",
    work_mode := "Remote", job_url := "", description := "",
    required_skills := [], preferred_skills := [], posted_date := none,
    experience_required := "", salary_range := none, source := "t",
    joining_date_flexible := true, relevance_score := s }

/-- The scored set of the spec's selection-gate scenario:
scores [85, 40, 72, 60, 59.9] in input order. -/
def demoScored : List JobListing :=
  [scoredPosting "a" 85, scoredPosting "b" 40, scoredPosting "c" 72,
   scoredPosting "d" 60, scoredPosting "e" (599/10)]

/-! ## Rounding lemmas -/

theorem roundQ_mono {p q : ℚ} (h : p ≤ q) : roundQ p ≤ roundQ q :=
  Int.floor_le_floor (by linarith)

theorem roundQ_intCast (n : ℤ) : roundQ (n : ℚ) = n := by
  unfold roundQ
  rw [add_comm, Int.floor_add_int]
  norm_num

theorem round2_le_of_le {q : ℚ} {n : ℤ} (h : q ≤ (n : ℚ)) : round2 q ≤ (n : ℚ) := by
  unfold round2
  rw [div_le_iff₀ (by norm_num : (0:ℚ) < 100)]
  have h1 : roundQ (q * 100) ≤ roundQ ((n * 100 : ℤ) : ℚ) := by
    apply roundQ_mono
    push_cast
    nlinarith
  rw [roundQ_intCast] at h1
  calc (roundQ (q * 100) : ℚ) ≤ ((n * 100 : ℤ) : ℚ) := by exact_mod_cast h1
    _ = (n : ℚ) * 100 := by push_cast; ring

theorem le_round2_of_le {q : ℚ} {n : ℤ} (h : (n : ℚ) ≤ q) : (n : ℚ) ≤ round2 q := by
  unfold round2
  rw [le_div_iff₀ (by norm_num : (0:ℚ) < 100)]
  have h1 : roundQ ((n * 100 : ℤ) : ℚ) ≤ roundQ (q * 100) := by
    apply roundQ_mono
    push_cast
    nlinarith
  rw [roundQ_intCast] at h1
  calc (n : ℚ) * 100 = ((n * 100 : ℤ) : ℚ) := by push_cast; ring
    _ ≤ (roundQ (q * 100) : ℚ) := by exact_mod_cast h1

theorem round1_le_of_le {q : ℚ} {n : ℤ} (h : q ≤ (n : ℚ)) : round1 q ≤ (n : ℚ) := by
  unfold round1
  rw [div_le_iff₀ (by norm_num : (0:ℚ) < 10)]
  have h1 : roundQ (q * 10) ≤ roundQ ((n * 10 : ℤ) : ℚ) := by
    apply roundQ_mono
    push_cast
    nlinarith
  rw [roundQ_intCast] at h1
  calc (roundQ (q * 10) : ℚ) ≤ ((n * 10 : ℤ) : ℚ) := by exact_mod_cast h1
    _ = (n : ℚ) * 10 := by push_cast; ring

theorem le_round1_of_le {q : ℚ} {n : ℤ} (h : (n : ℚ) ≤ q) : (n : ℚ) ≤ round1 q := by
  unfold round1
  rw [le_div_iff₀ (by norm_num : (0:ℚ) < 10)]
  have h1 : roundQ ((n * 10 : ℤ) : ℚ) ≤ roundQ (q * 10) := by
    apply roundQ_mono
    push_cast
    nlinarith
  rw [roundQ_intCast] at h1
  calc (n : ℚ) * 10 = ((n * 10 : ℤ) : ℚ) := by push_cast; ring
    _ ≤ (roundQ (q * 10) : ℚ) := by exact_mod_cast h1

/-! ## Component bounds -/

theorem round2_nonneg {q : ℚ} (h : 0 ≤ q) : 0 ≤ round2 q := by
  have h0 := le_round2_of_le (n := 0) (q := q) (by exact_mod_cast h)
  simpa using h0

theorem skillOverlapScore_bounds (job : JobListing) :
    0 ≤ skillOverlapScore job ∧ skillOverlapScore job ≤ 40 := by
  constructor
  · simp only [skillOverlapScore]
    split
    · norm_num
    · exact round2_nonneg (by positivity)
  · simp only [skillOverlapScore]
    split
    · norm_num
    · next hne =>
      have hlen : 0 < job.required_skills.length := List.length_pos.mpr hne
      have hml : job.required_skills.countP
          (fun s => (ALL_SKILLS.map lowerStr).contains (lowerStr s)) ≤
          job.required_skills.length := List.countP_le_length _
      have hlenQ : (0:ℚ) < (job.required_skills.length : ℚ) := by exact_mod_cast hlen
      have hmlQ : ((job.required_skills.countP
          (fun s => (ALL_SKILLS.map lowerStr).contains (lowerStr s)) : ℚ)) ≤
          (job.required_skills.length : ℚ) := by exact_mod_cast hml
      have hq : ((job.required_skills.countP
          (fun s => (ALL_SKILLS.map lowerStr).contains (lowerStr s)) : ℚ)) /
          (job.required_skills.length : ℚ) * 40 ≤ ((40 : ℤ) : ℚ) := by
        have h1 : ((job.required_skills.countP
            (fun s => (ALL_SKILLS.map lowerStr).contains (lowerStr s)) : ℚ)) /
            (job.required_skills.length : ℚ) ≤ 1 := (div_le_one hlenQ).mpr hmlQ
        push_cast
        nlinarith
      exact_mod_cast round2_le_of_le hq

theorem experienceMatchScore_bounds (job : JobListing) :
    0 ≤ experienceMatchScore job ∧ experienceMatchScore job ≤ 25 := by
  simp only [experienceMatchScore]
  split_ifs <;> norm_num

theorem techStackScore_bounds (job : JobListing) :
    0 ≤ techStackScore job ∧ techStackScore job ≤ 25 := by
  simp only [techStackScore]
  exact ⟨le_min (by positivity) (by norm_num), min_le_right _ _⟩

theorem companyPreferenceScore_bounds (job : JobListing) :
    0 ≤ companyPreferenceScore job ∧ companyPreferenceScore job ≤ 10 := by
  simp only [companyPreferenceScore]
  exact ⟨le_min (by positivity) (by norm_num), min_le_right _ _⟩

theorem baseScore_bounds (job : JobListing) :
    0 ≤ baseScore job ∧ baseScore job ≤ 100 := by
  obtain ⟨h1, h1'⟩ := skillOverlapScore_bounds job
  obtain ⟨h2, h2'⟩ := experienceMatchScore_bounds job
  obtain ⟨h3, h3'⟩ := techStackScore_bounds job
  obtain ⟨h4, h4'⟩ := companyPreferenceScore_bounds job
  unfold baseScore
  constructor <;> linarith

/-- C4: each scoring component is individually bounded (skill in [0,40],
experience in [0,25], tech in [0,25], company in [0,10]), so the sum of the
four components before the semantic blend is at most 100. -/
theorem claim_component_caps (job : JobListing) :
    0 ≤ skillOverlapScore job ∧ skillOverlapScore job ≤ 40 ∧
    0 ≤ experienceMatchScore job ∧ experienceMatchScore job ≤ 25 ∧
    0 ≤ techStackScore job ∧ techStackScore job ≤ 25 ∧
    0 ≤ companyPreferenceScore job ∧ companyPreferenceScore job ≤ 10 ∧
    skillOverlapScore job + experienceMatchScore job + techStackScore job +
      companyPreferenceScore job ≤ 100 := by
  obtain ⟨h1, h1'⟩ := skillOverlapScore_bounds job
  obtain ⟨h2, h2'⟩ := experienceMatchScore_bounds job
  obtain ⟨h3, h3'⟩ := techStackScore_bounds job
  obtain ⟨h4, h4'⟩ := companyPreferenceScore_bounds job
  refine ⟨h1, h1', h2, h2', h3, h3', h4, h4', by linarith⟩

/-! ## Sorting: permutation, sortedness, stability -/

theorem insertDesc_perm (a : JobListing) (l : List JobListing) :
    (insertDesc a l).Perm (a :: l) := by
  induction l with
  | nil => exact List.Perm.refl _
  | cons b l ih =>
    simp only [insertDesc]
    split
    · exact List.Perm.refl _
    · exact (ih.cons b).trans (List.Perm.swap a b l)

theorem sortDescByScore_perm (l : List JobListing) : (sortDescByScore l).Perm l := by
  induction l with
  | nil => exact List.Perm.refl _
  | cons a l ih =>
    simp only [sortDescByScore]
    exact (insertDesc_perm a (sortDescByScore l)).trans (ih.cons a)

theorem insertDesc_sorted {l : List JobListing} (a : JobListing)
    (h : l.Pairwise (fun x y => y.relevance_score ≤ x.relevance_score)) :
    (insertDesc a l).Pairwise (fun x y => y.relevance_score ≤ x.relevance_score) := by
  induction l with
  | nil => simp [insertDesc]
  | cons b l ih =>
    rw [List.pairwise_cons] at h
    simp only [insertDesc]
    split
    · next hba =>
      rw [List.pairwise_cons]
      refine ⟨?_, List.pairwise_cons.mpr h⟩
      intro x hx
      rcases List.mem_cons.mp hx with hxb | hxl
      · rw [hxb]; exact hba
      · exact le_trans (h.1 x hxl) hba
    · next hba =>
      have hab : a.relevance_score < b.relevance_score := not_le.mp hba
      rw [List.pairwise_cons]
      refine ⟨?_, ih h.2⟩
      intro x hx
      rcases List.mem_cons.mp ((insertDesc_perm a l).mem_iff.mp hx) with hxa | hxl
      · rw [hxa]; exact le_of_lt hab
      · exact h.1 x hxl

theorem sortDescByScore_sorted (l : List JobListing) :
    (sortDescByScore l).Pairwise (fun x y => y.relevance_score ≤ x.relevance_score) := by
  induction l with
  | nil => simp [sortDescByScore]
  | cons a l ih => exact insertDesc_sorted a ih

theorem filter_score_insertDesc (a : JobListing) (l : List JobListing) (s : ℚ) :
    (insertDesc a l).filter (fun j => j.relevance_score = s) =
      (a :: l).filter (fun j => j.relevance_score = s) := by
  induction l with
  | nil => rfl
  | cons b l ih =>
    simp only [insertDesc]
    split
    · rfl
    · next hba =>
      have hab : a.relevance_score < b.relevance_score := not_le.mp hba
      by_cases hbs : b.relevance_score = s
      · have has : ¬ a.relevance_score = s := by
          intro h
          rw [h, ← hbs] at hab
          exact absurd hab (lt_irrefl _)
        simp [List.filter_cons, hbs, has, ih]
      · simp [List.filter_cons, hbs, ih]

theorem filter_score_sortDescByScore (l : List JobListing) (s : ℚ) :
    (sortDescByScore l).filter (fun j => j.relevance_score = s) =
      l.filter (fun j => j.relevance_score = s) := by
  induction l with
  | nil => rfl
  | cons a l ih =>
    simp only [sortDescByScore]
    rw [filter_score_insertDesc, List.filter_cons, List.filter_cons, ih]

theorem filter_score_comm (m : List JobListing) (t s : ℚ) :
    ((m.filter (fun j => t ≤ j.relevance_score)).filter (fun j => j.relevance_score = s)) =
      ((m.filter (fun j => j.relevance_score = s)).filter (fun j => t ≤ j.relevance_score)) := by
  rw [List.filter_filter, List.filter_filter]
  apply List.filter_congr
  intro x _
  exact Bool.and_comm _ _

/-- C1: the selection gate returns exactly the postings with score ≥ threshold
(threshold inclusive: the permutation conjunct), in descending score order
(the pairwise conjunct), preserving input order on equal scores (the stability
conjunct); the node's `selected_jobs` is this gate applied to its scored set;
and on scores [85, 40, 72, 60, 59.9] with threshold 60 the output is the
postings scored 85, 72, 60 in that order. -/
theorem claim_selection_gate :
    (∀ (l : List JobListing) (t : ℚ),
        (selectionGate l t).Perm (l.filter (fun j => t ≤ j.relevance_score))) ∧
    (∀ (l : List JobListing) (t : ℚ),
        (selectionGate l t).Pairwise (fun x y => y.relevance_score ≤ x.relevance_score)) ∧
    (∀ (l : List JobListing) (t s : ℚ),
        (selectionGate l t).filter (fun j => j.relevance_score = s) =
          (l.filter (fun j => t ≤ j.relevance_score)).filter
            (fun j => j.relevance_score = s)) ∧
    (∀ (e : EmbeddingsOutcome) (jobs : List JobListing) (t : ℚ),
        (relevanceScoringNode e jobs t).2 =
          selectionGate ((jobs.filter (fun j => !(isDisqualified j))).map (scoreJob e)) t) ∧
    (selectionGate demoScored 60).map (fun j => j.relevance_score) = [85, 72, 60] ∧
    (selectionGate demoScored 60).map (fun j => j.job_id) = ["a", "c", "d"] := by
  refine ⟨?_, ?_, ?_, ?_, ?_, ?_⟩
  · intro l t
    exact (sortDescByScore_perm l).filter _
  · intro l t
    exact (sortDescByScore_sorted l).sublist (List.filter_sublist _)
  · intro l t s
    unfold selectionGate
    rw [filter_score_comm, filter_score_sortDescByScore, ← filter_score_comm]
  · intro e jobs t
    rfl
  · with_unfolding_all decide
  · with_unfolding_all decide

/-! ## Disqualification is strict -/

theorem isDisqualified_scoreJob (e : EmbeddingsOutcome) (j : JobListing) :
    isDisqualified (scoreJob e j) = isDisqualified j := rfl

theorem relevanceScoringNode_snd (e : EmbeddingsOutcome) (jobs : List JobListing) (t : ℚ) :
    (relevanceScoringNode e jobs t).2 =
      (relevanceScoringNode e jobs t).1.filter (fun j => t ≤ j.relevance_score) := rfl

theorem mem_scored_iff {e : EmbeddingsOutcome} {jobs : List JobListing} {t : ℚ}
    {x : JobListing} :
    x ∈ (relevanceScoringNode e jobs t).1 ↔
      ∃ j ∈ jobs, isDisqualified j = false ∧ x = scoreJob e j := by
  unfold relevanceScoringNode
  simp only
  rw [(sortDescByScore_perm _).mem_iff]
  simp only [List.mem_map, List.mem_filter, Bool.not_eq_true']
  constructor
  · rintro ⟨j, ⟨hj, hd⟩, hx⟩
    exact ⟨j, hj, hd, hx.symm⟩
  · rintro ⟨j, hj, hd, hx⟩
    exact ⟨j, ⟨hj, hd⟩, hx.symm⟩

/-- C2: a posting matching any blacklist keyword (case-insensitive substring of
title + description + experience text) appears in neither the scored output
nor the selected output of the scoring node, whatever its components score. -/
theorem claim_disqualified_excluded (e : EmbeddingsOutcome) (jobs : List JobListing)
    (t : ℚ) (j : JobListing) (h : isDisqualified j = true) :
    j ∉ (relevanceScoringNode e jobs t).1 ∧ j ∉ (relevanceScoringNode e jobs t).2 := by
  have h1 : j ∉ (relevanceScoringNode e jobs t).1 := by
    intro hmem
    obtain ⟨j', _, hd, hx⟩ := mem_scored_iff.mp hmem
    rw [hx, isDisqualified_scoreJob] at h
    rw [h] at hd
    simp at hd
  refine ⟨h1, ?_⟩
  intro hmem
  rw [relevanceScoringNode_snd] at hmem
  exact h1 (List.mem_of_mem_filter hmem)

/-- Witness for C2 at a concrete blacklisted posting. -/
theorem claim_disqualified_excluded_witness :
    isDisqualified jobBlacklisted = true ∧
      jobBlacklisted ∉
        (relevanceScoringNode EmbeddingsOutcome.absent [jobBlacklisted] 60).1 ∧
      jobBlacklisted ∉
        (relevanceScoringNode EmbeddingsOutcome.absent [jobBlacklisted] 60).2 := by
  have h : isDisqualified jobBlacklisted = true := by with_unfolding_all decide
  obtain ⟨h1, h2⟩ :=
    claim_disqualified_excluded EmbeddingsOutcome.absent [jobBlacklisted] 60 jobBlacklisted h
  exact ⟨h, h1, h2⟩

/-! ## Final-score facts -/

theorem baseScore_scoreJob (e : EmbeddingsOutcome) (j : JobListing) :
    baseScore (scoreJob e j) = baseScore j := rfl

theorem relevance_score_scoreJob (e : EmbeddingsOutcome) (j : JobListing) :
    (scoreJob e j).relevance_score = finalScore e j := rfl

theorem finalScore_le_100 (e : EmbeddingsOutcome) (job : JobListing) :
    finalScore e job ≤ 100 := by
  unfold finalScore
  have h : min (baseScore job + semanticBonus e * (1/10)) 100 ≤ ((100 : ℤ) : ℚ) := by
    push_cast
    exact min_le_right _ _
  exact_mod_cast round1_le_of_le h

theorem finalScore_nonneg_of_bonus_nonneg {e : EmbeddingsOutcome} (job : JobListing)
    (h : 0 ≤ semanticBonus e) : 0 ≤ finalScore e job := by
  unfold finalScore
  have hb := (baseScore_bounds job).1
  have h0 : ((0 : ℤ) : ℚ) ≤ min (baseScore job + semanticBonus e * (1/10)) 100 := by
    push_cast
    exact le_min (by linarith) (by norm_num)
  exact_mod_cast le_round1_of_le h0

/-- C3 (counterexample): with the embedding collaborator absent the node's
semantic bonus is 0.0, not 5.0, so a posting whose four components sum to 0 is
written score 0.0 rather than the claimed 0 + 0.5. -/
theorem claim_semantic_default_counterexample :
    semanticBonus EmbeddingsOutcome.absent = 0 ∧
    baseScore jobZero = 0 ∧
    (relevanceScoringNode EmbeddingsOutcome.absent [jobZero] 60).1.map
      (fun j => j.relevance_score) = [0] ∧
    baseScore jobZero + 5 * (1/10) = 1/2 ∧
    ((0 : ℚ) ≠ 1/2) := by
  refine ⟨rfl, by with_unfolding_all decide, by with_unfolding_all decide,
    by with_unfolding_all decide, by norm_num⟩

/-- C3 (amended): the 5.0 default applies only when the collaborator is present
and its invocation throws — every scored posting then carries
round1(min(base + 0.5, 100)); when the collaborator is absent the bonus is 0.0
and every scored posting carries round1(min(base, 100)). -/
theorem claim_semantic_default_amended :
    semanticSimilarity none = 5 ∧
    semanticBonus EmbeddingsOutcome.failing = 5 ∧
    semanticBonus EmbeddingsOutcome.absent = 0 ∧
    (∀ (jobs : List JobListing) (t : ℚ) (x : JobListing),
        x ∈ (relevanceScoringNode EmbeddingsOutcome.failing jobs t).1 →
          x.relevance_score = round1 (min (baseScore x + 5 * (1/10)) 100)) ∧
    (∀ (jobs : List JobListing) (t : ℚ) (x : JobListing),
        x ∈ (relevanceScoringNode EmbeddingsOutcome.absent jobs t).1 →
          x.relevance_score = round1 (min (baseScore x) 100)) := by
  refine ⟨rfl, rfl, rfl, ?_, ?_⟩
  · intro jobs t x hx
    obtain ⟨j, _, _, hj⟩ := mem_scored_iff.mp hx
    rw [hj, relevance_score_scoreJob, baseScore_scoreJob]
    rfl
  · intro jobs t x hx
    obtain ⟨j, _, _, hj⟩ := mem_scored_iff.mp hx
    rw [hj, relevance_score_scoreJob, baseScore_scoreJob]
    unfold finalScore
    norm_num [semanticBonus, semanticSimilarity]

/-- Witness for C3 (amended) at a concrete posting and run. -/
theorem claim_semantic_default_amended_witness :
    (scoreJob EmbeddingsOutcome.failing jobZero ∈
      (relevanceScoringNode EmbeddingsOutcome.failing [jobZero] 60).1) ∧
    (scoreJob EmbeddingsOutcome.failing jobZero).relevance_score =
      round1 (min (baseScore (scoreJob EmbeddingsOutcome.failing jobZero) + 5 * (1/10)) 100) :=
  ⟨by with_unfolding_all decide,
   claim_semantic_default_amended.2.2.2.1 [jobZero] 60 _ (by with_unfolding_all decide)⟩

/-- C5 (counterexample): the code clamps the final score only from above; with
a successful embedding call returning cosine similarity -1 (a mathematically
attainable value), a posting whose four components sum to 0 is written the
final score -1.0, which lies outside [0, 100]. -/
theorem claim_score_range_counterexample :
    (-1 ≤ (-1 : ℚ) ∧ (-1 : ℚ) ≤ 1) ∧
    (relevanceScoringNode (EmbeddingsOutcome.similarity (-1)) [jobZero] 60).1.map
      (fun j => j.relevance_score) = [-1] ∧
    ¬ (0 ≤ (-1 : ℚ)) := by
  refine ⟨⟨le_refl _, by norm_num⟩, by with_unfolding_all decide, by norm_num⟩

/-- C5 (amended): the final score equals round1(min(100, base + 0.1·bonus)),
is always at most 100, is at least 0 whenever the semantic bonus is
nonnegative — in particular always when the collaborator is absent or throws —
and is never below -1 for any cosine similarity ≥ -1; a negative similarity
can push it below 0 because the code has no lower clamp. -/
theorem claim_score_range_amended :
    ∀ (e : EmbeddingsOutcome) (job : JobListing),
      finalScore e job = round1 (min (baseScore job + semanticBonus e * (1/10)) 100) ∧
      finalScore e job ≤ 100 ∧
      (0 ≤ semanticBonus e → 0 ≤ finalScore e job) ∧
      (∀ s : ℚ, e = EmbeddingsOutcome.similarity s → -1 ≤ s → -1 ≤ finalScore e job) ∧
      0 ≤ finalScore EmbeddingsOutcome.absent job ∧
      0 ≤ finalScore EmbeddingsOutcome.failing job ∧
      (∀ (jobs : List JobListing) (t : ℚ) (x : JobListing),
          x ∈ (relevanceScoringNode e jobs t).1 → x.relevance_score ≤ 100) := by
  intro e job
  refine ⟨rfl, finalScore_le_100 e job, finalScore_nonneg_of_bonus_nonneg job, ?_, ?_, ?_, ?_⟩
  · intro s hs hsim
    subst hs
    have hb := (baseScore_bounds job).1
    have hbonus : ((-10 : ℤ) : ℚ) ≤ semanticBonus (EmbeddingsOutcome.similarity s) := by
      show ((-10 : ℤ) : ℚ) ≤ semanticSimilarity (some s)
      unfold semanticSimilarity
      exact le_round2_of_le (by push_cast; nlinarith)
    have hbonus' : (-10 : ℚ) ≤ semanticBonus (EmbeddingsOutcome.similarity s) := by
      exact_mod_cast hbonus
    unfold finalScore
    have h0 : ((-1 : ℤ) : ℚ) ≤
        min (baseScore job + semanticBonus (EmbeddingsOutcome.similarity s) * (1/10)) 100 := by
      push_cast
      exact le_min (by linarith) (by norm_num)
    exact_mod_cast le_round1_of_le h0
  · exact finalScore_nonneg_of_bonus_nonneg job (by norm_num [semanticBonus, semanticSimilarity])
  · exact finalScore_nonneg_of_bonus_nonneg job (by norm_num [semanticBonus, semanticSimilarity])
  · intro jobs t x hx
    obtain ⟨j, _, _, hj⟩ := mem_scored_iff.mp hx
    rw [hj, relevance_score_scoreJob]
    exact finalScore_le_100 e j

/-- Witness for C5 (amended) at similarity -1 and a concrete posting. -/
theorem claim_score_range_amended_witness :
    -1 ≤ finalScore (EmbeddingsOutcome.similarity (-1)) jobZero ∧
    finalScore (EmbeddingsOutcome.similarity (-1)) jobZero ≤ 100 :=
  ⟨(claim_score_range_amended (EmbeddingsOutcome.similarity (-1)) jobZero).2.2.2.1
      (-1) rfl (by norm_num),
   (claim_score_range_amended (EmbeddingsOutcome.similarity (-1)) jobZero).2.1⟩

/-! ## Skill overlap: exact fraction vs. the source's 2-decimal rounding -/

/-- C7 (counterexample): with required skills [Python, Cobol, Fortran] and only
Python in the candidate set, the source computes round(40/3, 2) = 13.33, which
differs from the exact fraction-scaled value 40/3 the claim states. -/
theorem claim_skill_fraction_counterexample :
    skillOverlapScore jobThird = 1333/100 ∧
    skillOverlapSpecWorded jobThird = 40/3 ∧
    ((1333 : ℚ)/100 ≠ 40/3) := by
  refine ⟨by with_unfolding_all decide, by with_unfolding_all decide, by norm_num⟩

/-- C7 (amended): an empty required-skill list yields exactly 20; a non-empty
one yields the fraction of required skills present in the candidate set,
scaled to 40 and rounded to two decimal places. -/
theorem claim_skill_fraction_amended (job : JobListing) :
    (job.required_skills = [] → skillOverlapScore job = 20) ∧
    (job.required_skills ≠ [] →
      skillOverlapScore job = round2 (skillOverlapSpecWorded job)) := by
  constructor
  · intro h
    simp [skillOverlapScore, h]
  · intro h
    simp [skillOverlapScore, skillOverlapSpecWorded, h]

/-- Witness for C7 (amended) on both branches. -/
theorem claim_skill_fraction_amended_witness :
    skillOverlapScore jobThird = round2 (skillOverlapSpecWorded jobThird) ∧
    skillOverlapScore (scoredPosting "w" 0) = 20 :=
  ⟨(claim_skill_fraction_amended jobThird).2 (by with_unfolding_all decide),
   (claim_skill_fraction_amended (scoredPosting "w" 0)).1 (by with_unfolding_all decide)⟩

/-! ## The end-to-end scenario -/

/-- C8 (counterexample): in the spec's end-to-end scenario the tech-stack scan
also covers the posting's skill lists, so required skill PyTorch is a third
hit besides LangChain and RAG: the tech component is 9, not 6, and the final
embedding-free score is 76.0, not 73.0. -/
theorem claim_scenario_counterexample :
    techStackScore jobScenario = 9 ∧ ((9 : ℚ) ≠ 6) ∧
    finalScore EmbeddingsOutcome.absent jobScenario = 76 ∧ ((76 : ℚ) ≠ 73) := by
  refine ⟨by with_unfolding_all decide, by norm_num,
    by with_unfolding_all decide, by norm_num⟩

/-- C8 (amended): the scenario posting scores skill 40, experience 25, tech 9
(LangChain, RAG and the required skill PyTorch), company 2; the final score
with no embedding collaborator is 76.0 and the posting is selected under
threshold 60. -/
theorem claim_scenario_amended :
    skillOverlapScore jobScenario = 40 ∧
    experienceMatchScore jobScenario = 25 ∧
    techStackScore jobScenario = 9 ∧
    companyPreferenceScore jobScenario = 2 ∧
    baseScore jobScenario = 76 ∧
    finalScore EmbeddingsOutcome.absent jobScenario = 76 ∧
    (relevanceScoringNode EmbeddingsOutcome.absent [jobScenario] 60).2 =
      [scoreJob EmbeddingsOutcome.absent jobScenario] := by
  with_unfolding_all decide

/-! ## Experience-tier characterization -/

theorem expScoreTiers_cases (b1 b2 b3 b4 : Bool) :
    (expScoreTiers b1 b2 b3 b4 = 25 ↔ b1 = true) ∧
    (expScoreTiers b1 b2 b3 b4 = 18 ↔ (b1 = false ∧ b2 = true)) ∧
    (expScoreTiers b1 b2 b3 b4 = 8 ↔ (b1 = false ∧ b2 = false ∧ b3 = true)) ∧
    (expScoreTiers b1 b2 b3 b4 = 0 ↔ (b1 = false ∧ b2 = false ∧ b3 = false ∧ b4 = true)) ∧
    (expScoreTiers b1 b2 b3 b4 = 15 ↔ (b1 = false ∧ b2 = false ∧ b3 = false ∧ b4 = false)) := by
  cases b1 <;> cases b2 <;> cases b3 <;> cases b4 <;> decide

/-- C6: the experience component is a case-insensitive tiered keyword scan over
experience text + description: an entry/intern-tier keyword yields 25; else a
junior/1-2-year keyword yields 18; else a 2+/2-3-year keyword yields 8; else a
senior/lead/3+ keyword yields 0; text matching no tier keyword yields 15. -/
theorem claim_experience_tiers (job : JobListing) :
    (experienceMatchScore job = 25 ↔
      ∃ kw ∈ ["intern", "fresher", "0-1", "entry", "graduate", "trainee"],
        containsSub (lowerStr job.experience_required ++ " " ++
          lowerStr job.description) kw = true) ∧
    (experienceMatchScore job = 18 ↔
      ((¬ ∃ kw ∈ ["intern", "fresher", "0-1", "entry", "graduate", "trainee"],
          containsSub (lowerStr job.experience_required ++ " " ++
            lowerStr job.description) kw = true) ∧
        ∃ kw ∈ ["1-2 year", "1+ year", "junior"],
          containsSub (lowerStr job.experience_required ++ " " ++
            lowerStr job.description) kw = true)) ∧
    (experienceMatchScore job = 8 ↔
      ((¬ ∃ kw ∈ ["intern", "fresher", "0-1", "entry", "graduate", "trainee"],
          containsSub (lowerStr job.experience_required ++ " " ++
            lowerStr job.description) kw = true) ∧
        (¬ ∃ kw ∈ ["1-2 year", "1+ year", "junior"],
          containsSub (lowerStr job.experience_required ++ " " ++
            lowerStr job.description) kw = true) ∧
        ∃ kw ∈ ["2+ year", "2-3 year"],
          containsSub (lowerStr job.experience_required ++ " " ++
            lowerStr job.description) kw = true)) ∧
    (experienceMatchScore job = 0 ↔
      ((¬ ∃ kw ∈ ["intern", "fresher", "0-1", "entry", "graduate", "trainee"],
          containsSub (lowerStr job.experience_required ++ " " ++
            lowerStr job.description) kw = true) ∧
        (¬ ∃ kw ∈ ["1-2 year", "1+ year", "junior"],
          containsSub (lowerStr job.experience_required ++ " " ++
            lowerStr job.description) kw = true) ∧
        (¬ ∃ kw ∈ ["2+ year", "2-3 year"],
          containsSub (lowerStr job.experience_required ++ " " ++
            lowerStr job.description) kw = true) ∧
        ∃ kw ∈ ["3+", "4+", "5+", "senior", "lead"],
          containsSub (lowerStr job.experience_required ++ " " ++
            lowerStr job.description) kw = true)) ∧
    (experienceMatchScore job = 15 ↔
      ((¬ ∃ kw ∈ ["intern", "fresher", "0-1", "entry", "graduate", "trainee"],
          containsSub (lowerStr job.experience_required ++ " " ++
            lowerStr job.description) kw = true) ∧
        (¬ ∃ kw ∈ ["1-2 year", "1+ year", "junior"],
          containsSub (lowerStr job.experience_required ++ " " ++
            lowerStr job.description) kw = true) ∧
        (¬ ∃ kw ∈ ["2+ year", "2-3 year"],
          containsSub (lowerStr job.experience_required ++ " " ++
            lowerStr job.description) kw = true) ∧
        (¬ ∃ kw ∈ ["3+", "4+", "5+", "senior", "lead"],
          containsSub (lowerStr job.experience_required ++ " " ++
            lowerStr job.description) kw = true))) := by
  have hdef : experienceMatchScore job =
      expScoreTiers
        (["intern", "fresher", "0-1", "entry", "graduate", "trainee"].any
          fun kw => containsSub (lowerStr job.experience_required ++ " " ++
            lowerStr job.description) kw)
        (["1-2 year", "1+ year", "junior"].any
          fun kw => containsSub (lowerStr job.experience_required ++ " " ++
            lowerStr job.description) kw)
        (["2+ year", "2-3 year"].any
          fun kw => containsSub (lowerStr job.experience_required ++ " " ++
            lowerStr job.description) kw)
        (["3+", "4+", "5+", "senior", "lead"].any
          fun kw => containsSub (lowerStr job.experience_required ++ " " ++
            lowerStr job.description) kw) := rfl
  have h := expScoreTiers_cases
    (["intern", "fresher", "0-1", "entry", "graduate", "trainee"].any
      fun kw => containsSub (lowerStr job.experience_required ++ " " ++
        lowerStr job.description) kw)
    (["1-2 year", "1+ year", "junior"].any
      fun kw => containsSub (lowerStr job.experience_required ++ " " ++
        lowerStr job.description) kw)
    (["2+ year", "2-3 year"].any
      fun kw => containsSub (lowerStr job.experience_required ++ " " ++
        lowerStr job.description) kw)
    (["3+", "4+", "5+", "senior", "lead"].any
      fun kw => containsSub (lowerStr job.experience_required ++ " " ++
        lowerStr job.description) kw)
  refine ⟨?_, ?_, ?_, ?_, ?_⟩ <;>
    simp only [hdef, h.1, h.2.1, h.2.2.1, h.2.2.2.1, h.2.2.2.2,
      ← Bool.not_eq_true, List.any_eq_true]

/-- Witness for C6 at a concrete posting whose experience text hits the
intern/fresher tier. -/
theorem claim_experience_tiers_witness :
    experienceMatchScore jobScenario = 25 :=
  (claim_experience_tiers jobScenario).1.mpr (by with_unfolding_all decide)

/-! ## Discovery deduplication -/

theorem dedupByJobId_pairwise (jobs : List RawJob) : ∀ seen : List String,
    (dedupByJobId seen jobs).Pairwise (fun a b => a.job_id ≠ b.job_id) ∧
    ∀ x ∈ dedupByJobId seen jobs, x.job_id ∉ seen := by
  induction jobs with
  | nil => intro seen; simp [dedupByJobId]
  | cons j rest ih =>
    intro seen
    simp only [dedupByJobId]
    split
    · exact ih seen
    · next hmem =>
      obtain ⟨hp, hs⟩ := ih (j.job_id :: seen)
      constructor
      · rw [List.pairwise_cons]
        refine ⟨?_, hp⟩
        intro x hx heq
        exact hs x hx (by rw [← heq]; exact List.mem_cons_self _ _)
      · intro x hx
        rcases List.mem_cons.mp hx with hxj | hxl
        · rw [hxj]; exact hmem
        · intro hxs
          exact hs x hxl (List.mem_cons_of_mem _ hxs)

theorem dedupByJobId_filter (jobs : List RawJob) : ∀ (seen : List String) (i : String),
    (i ∈ seen → (dedupByJobId seen jobs).filter (fun j => j.job_id = i) = []) ∧
    (i ∉ seen → (dedupByJobId seen jobs).filter (fun j => j.job_id = i) =
      (jobs.filter (fun j => j.job_id = i)).take 1) := by
  induction jobs with
  | nil => intro seen i; simp [dedupByJobId]
  | cons j rest ih =>
    intro seen i
    constructor
    · intro hi
      simp only [dedupByJobId]
      split
      · exact (ih seen i).1 hi
      · next hj =>
        have hji : ¬ j.job_id = i := fun h => hj (h ▸ hi)
        rw [List.filter_cons]
        simp only [decide_eq_true_eq, hji, if_false]
        exact (ih (j.job_id :: seen) i).1 (List.mem_cons_of_mem _ hi)
    · intro hi
      simp only [dedupByJobId]
      split
      · next hj =>
        have hji : ¬ j.job_id = i := fun h => hi (h ▸ hj)
        rw [List.filter_cons]
        simp only [decide_eq_true_eq, hji, if_false]
        exact (ih seen i).2 hi
      · next hj =>
        by_cases hji : j.job_id = i
        · rw [List.filter_cons, List.filter_cons]
          simp only [decide_eq_true_eq, hji, if_true]
          rw [(ih (i :: seen) i).1 (List.mem_cons_self _ _)]
          simp
        · rw [List.filter_cons, List.filter_cons]
          simp only [decide_eq_true_eq, hji, if_false]
          refine (ih (j.job_id :: seen) i).2 ?_
          intro hins
          rcases List.mem_cons.mp hins with h | h
          · exact hji (h.symm)
          · exact hi h

/-- C9: the posting identifier is a pure deterministic function of the pair
(title, company) — equal inputs give equal identifiers — and the discovery
deduplication loop produces no two postings with the same identifier, keeping
the first-discovered posting for each identifier. -/
theorem claim_job_id_dedup :
    (∀ (md5hex : String → String) (t c t' c' : String), t = t' → c = c' →
        (mkRawJob md5hex t c).job_id = (mkRawJob md5hex t' c').job_id) ∧
    (∀ jobs : List RawJob,
        (dedupByJobId [] jobs).Pairwise (fun a b => a.job_id ≠ b.job_id)) ∧
    (∀ (jobs : List RawJob) (i : String),
        (dedupByJobId [] jobs).filter (fun j => j.job_id = i) =
          (jobs.filter (fun j => j.job_id = i)).take 1) := by
  refine ⟨?_, ?_, ?_⟩
  · intro md5hex t c t' c' ht hc
    rw [ht, hc]
  · intro jobs
    exact (dedupByJobId_pairwise jobs []).1
  · intro jobs i
    exact (dedupByJobId_filter jobs [] i).2 (List.not_mem_nil i)

/-- Witness for C9's identifier conjunct at concrete strings (and a concrete
run of the deduplication loop on colliding postings). -/
theorem claim_job_id_dedup_witness :
    (mkRawJob (fun s => s) "ML Intern" "Acme AI").job_id =
      (mkRawJob (fun s => s) "ML Intern" "Acme AI").job_id ∧
    dedupByJobId []
        [mkRawJob (fun s => s) "ML Intern" "Acme AI",
         mkRawJob (fun s => s) "ML Intern" "Acme AI"] =
      [mkRawJob (fun s => s) "ML Intern" "Acme AI"] :=
  ⟨claim_job_id_dedup.1 (fun s => s) "ML Intern" "Acme AI" "ML Intern" "Acme AI" rfl rfl,
   by with_unfolding_all decide⟩

/-! ## Work-mode and joining-flexibility never influence scoring -/

theorem finalScore_setWorkModeFlex (e : EmbeddingsOutcome) (j : JobListing)
    (wm : String) (fl : Bool) :
    finalScore e (setWorkModeFlex j wm fl) = finalScore e j := rfl

theorem isDisqualified_setWorkModeFlex (j : JobListing) (wm : String) (fl : Bool) :
    isDisqualified (setWorkModeFlex j wm fl) = isDisqualified j := rfl

theorem scoreJob_setWorkModeFlex (e : EmbeddingsOutcome) (j : JobListing)
    (wm : String) (fl : Bool) :
    scoreJob e (setWorkModeFlex j wm fl) = setWorkModeFlex (scoreJob e j) wm fl := rfl

theorem relevance_score_setWorkModeFlex (j : JobListing) (wm : String) (fl : Bool) :
    (setWorkModeFlex j wm fl).relevance_score = j.relevance_score := rfl

theorem insertDesc_map_setWorkModeFlex (wm : String) (fl : Bool) (a : JobListing)
    (l : List JobListing) :
    insertDesc (setWorkModeFlex a wm fl) (l.map (fun x => setWorkModeFlex x wm fl)) =
      (insertDesc a l).map (fun x => setWorkModeFlex x wm fl) := by
  induction l with
  | nil => rfl
  | cons b l ih =>
    simp only [List.map_cons, insertDesc, relevance_score_setWorkModeFlex]
    split
    · rfl
    · rw [List.map_cons, ih]

theorem sortDescByScore_map_setWorkModeFlex (wm : String) (fl : Bool)
    (l : List JobListing) :
    sortDescByScore (l.map (fun x => setWorkModeFlex x wm fl)) =
      (sortDescByScore l).map (fun x => setWorkModeFlex x wm fl) := by
  induction l with
  | nil => rfl
  | cons a l ih =>
    simp only [List.map_cons, sortDescByScore]
    rw [ih, insertDesc_map_setWorkModeFlex]

theorem scored_map_setWorkModeFlex (e : EmbeddingsOutcome) (wm : String) (fl : Bool)
    (jobs : List JobListing) :
    ((jobs.map (fun x => setWorkModeFlex x wm fl)).filter
        (fun j => !(isDisqualified j))).map (scoreJob e) =
      ((jobs.filter (fun j => !(isDisqualified j))).map (scoreJob e)).map
        (fun x => setWorkModeFlex x wm fl) := by
  induction jobs with
  | nil => rfl
  | cons a l ih =>
    simp only [List.map_cons, List.filter_cons, isDisqualified_setWorkModeFlex]
    rcases Bool.eq_false_or_eq_true (isDisqualified a) with h | h <;>
      simp [h, ih, scoreJob_setWorkModeFlex]

theorem filter_threshold_map_setWorkModeFlex (wm : String) (fl : Bool) (t : ℚ)
    (l : List JobListing) :
    (l.map (fun x => setWorkModeFlex x wm fl)).filter (fun j => t ≤ j.relevance_score) =
      (l.filter (fun j => t ≤ j.relevance_score)).map (fun x => setWorkModeFlex x wm fl) := by
  induction l with
  | nil => rfl
  | cons a l ih =>
    simp only [List.map_cons, List.filter_cons, relevance_score_setWorkModeFlex]
    split
    · rw [List.map_cons, ih]
    · exact ih

/-- C10: two postings identical except for work-mode and the start-date-flexible
flag receive the same relevance score, the same disqualification decision and
the same selection decision: rewriting those two fields across the whole input
maps through the scoring node's outputs unchanged (the `_eligibility_score`
bonus that reads them is never invoked by the node). -/
theorem claim_work_mode_irrelevant (e : EmbeddingsOutcome) (jobs : List JobListing)
    (t : ℚ) (wm : String) (fl : Bool) (j : JobListing) :
    finalScore e (setWorkModeFlex j wm fl) = finalScore e j ∧
    isDisqualified (setWorkModeFlex j wm fl) = isDisqualified j ∧
    ((t ≤ finalScore e (setWorkModeFlex j wm fl)) ↔ (t ≤ finalScore e j)) ∧
    (relevanceScoringNode e (jobs.map (fun x => setWorkModeFlex x wm fl)) t).1 =
      ((relevanceScoringNode e jobs t).1).map (fun x => setWorkModeFlex x wm fl) ∧
    (relevanceScoringNode e (jobs.map (fun x => setWorkModeFlex x wm fl)) t).2 =
      ((relevanceScoringNode e jobs t).2).map (fun x => setWorkModeFlex x wm fl) := by
  have h1 : (relevanceScoringNode e (jobs.map (fun x => setWorkModeFlex x wm fl)) t).1 =
      ((relevanceScoringNode e jobs t).1).map (fun x => setWorkModeFlex x wm fl) := by
    show sortDescByScore _ = _
    rw [scored_map_setWorkModeFlex, sortDescByScore_map_setWorkModeFlex]
    rfl
  refine ⟨rfl, rfl, Iff.rfl, h1, ?_⟩
  show (relevanceScoringNode e (jobs.map (fun x => setWorkModeFlex x wm fl)) t).1.filter _ = _
  rw [h1, filter_threshold_map_setWorkModeFlex]
  rfl

end JobHunter
